import Mathlib

/-!
Verification development for the Greenland-AI building-energy repository.

The three analytical engines — `EnergyOptimizer` (src/unnamed/part_000,
class `EnergyOptimizer`), `AnomalyDetector` (src/unnamed/part_000, class
`AnomalyDetector`) and `EnergyForecaster` (src/project/src/utils/forecasting.ts)
— are embedded shallowly.  JS numbers are modelled as exact rationals `ℚ`
except where the source computes `Math.sqrt` / `Math.sin`, which are modelled
in `ℝ` (`Real.sqrt`, `Real.sin`).  `Math.round(x*100)/100` is modelled by
`round2` below (`round` on `ℚ` is `⌊x + 1/2⌋`, the same as JS `Math.round`).
A JS division whose denominator is zero produces `NaN`/`Infinity`; wherever a
claim touches such a division the result is modelled as an `Option` with
`none` standing for the non-finite outcome (see `calculateGridStressReduction`
and `calculateConfidence`).
Timestamps are modelled as integral hours since an epoch that falls at
midnight on a Sunday (so JS `Date.getDay() = 0`); `getHours`/`getDay` below
derive hour-of-day and day-of-week exactly as `new Date(ts)` does for
hourly-aligned data.
-/

namespace GreenlandAI

/-- `Math.round(x * 100) / 100` — round to 2 decimals (kWh and money). -/
def round2 (x : ℚ) : ℚ := (round (x * 100) : ℤ) / 100

/-- `Math.round(x * 10) / 10` — round to 1 decimal (percentages). -/
def round1 (x : ℚ) : ℚ := (round (x * 10) : ℤ) / 10

/-- `Math.round(x * 1000) / 1000` — round to 3 decimals (prices). -/
def round3 (x : ℚ) : ℚ := (round (x * 1000) : ℤ) / 1000

/-! ## Optimizer (src/unnamed/part_000, class `EnergyOptimizer`) -/

/-- Time-of-use period (`'peak' | 'off-peak' | 'mid-peak'`). -/
inductive TOU where
  | peak
  | offPeak
  | midPeak
deriving DecidableEq, Repr

/-- `priceMultipliers` (part_000 lines 22-26). -/
def TOU.multiplier : TOU → ℚ
  | .peak => 9/5
  | .offPeak => 3/5
  | .midPeak => 1

/-- Constructor-time configuration of `EnergyOptimizer` (part_000 lines 3-12). -/
structure EnergyOptimizer where
  batteryCapacity : ℚ
  batteryEfficiency : ℚ
  gridCarbonIntensity : ℚ
deriving DecidableEq

/-- `new EnergyOptimizer()` with the default arguments (capacity 50,
efficiency 0.95, carbon intensity 0.8). -/
def defaultOptimizer : EnergyOptimizer := ⟨50, 19/20, 4/5⟩

/-- The record returned by `optimize` (src/project/src/types/energy.ts,
`OptimizationResult`).  `gridStressReduction` is `none` when the JS source
divides by zero (demand 0) and would produce a non-finite number;
`batteryLevel` is `none` except in `optimizeDayAhead` results. -/
structure OptimizationResult where
  gridKwh : ℚ
  solarKwh : ℚ
  batteryKwh : ℚ
  batteryCharge : ℚ
  excessSolar : ℚ
  totalCost : ℚ
  carbonSaved : ℚ
  renewablePercentage : ℚ
  peakDemandReduction : ℚ
  gridStressReduction : Option ℚ
  timeOfUse : TOU
  adjustedGridPrice : ℚ
  batteryLevel : Option ℚ
deriving DecidableEq

/-- `adjustedGridPrice = gridPrice * priceMultipliers[timeOfUse]` (line 28). -/
def adjustedPrice (gridPrice : ℚ) (t : TOU) : ℚ := gridPrice * t.multiplier

/-- Step 1 (line 38): `solarKwh = Math.min(solarAvailableKwh, demandKwh)`. -/
def solarUsed (demandKwh solarAvailableKwh : ℚ) : ℚ := min solarAvailableKwh demandKwh

/-- `remainingDemand` after step 1 (line 39). -/
def remainingAfterSolar (demandKwh solarAvailableKwh : ℚ) : ℚ :=
  demandKwh - solarUsed demandKwh solarAvailableKwh

/-- `excessSolar` before battery charging (line 42). -/
def rawExcessSolar (demandKwh solarAvailableKwh : ℚ) : ℚ :=
  solarAvailableKwh - solarUsed demandKwh solarAvailableKwh

/-- Step 2 (lines 43-48): charge the battery with excess solar,
`batteryCharge = Math.min(excessSolar, capacity - batteryLevel) * efficiency`. -/
def chargeAmount (o : EnergyOptimizer) (demandKwh solarAvailableKwh batteryLevel : ℚ) : ℚ :=
  if 0 < rawExcessSolar demandKwh solarAvailableKwh then
    min (rawExcessSolar demandKwh solarAvailableKwh) (o.batteryCapacity - batteryLevel)
      * o.batteryEfficiency
  else 0

/-- `excessSolar -= batteryCharge / efficiency` inside the step-2 branch (line 47). -/
def excessAfterCharge (o : EnergyOptimizer) (demandKwh solarAvailableKwh batteryLevel : ℚ) : ℚ :=
  if 0 < rawExcessSolar demandKwh solarAvailableKwh then
    rawExcessSolar demandKwh solarAvailableKwh
      - chargeAmount o demandKwh solarAvailableKwh batteryLevel / o.batteryEfficiency
  else rawExcessSolar demandKwh solarAvailableKwh

/-- Step 3 (lines 51-57): discharge the battery only when demand remains,
the battery is non-empty, and `timeOfUse === 'peak' || adjustedGridPrice > 0.15`;
amount `Math.min(remainingDemand, batteryLevel)`. -/
def dischargeAmount (demandKwh solarAvailableKwh gridPrice batteryLevel : ℚ) (t : TOU) : ℚ :=
  if 0 < remainingAfterSolar demandKwh solarAvailableKwh ∧ 0 < batteryLevel then
    if t = .peak ∨ 3/20 < adjustedPrice gridPrice t then
      min (remainingAfterSolar demandKwh solarAvailableKwh) batteryLevel
    else 0
  else 0

/-- Step 4 (line 60): the grid serves whatever demand remains. -/
def gridAmount (demandKwh solarAvailableKwh gridPrice batteryLevel : ℚ) (t : TOU) : ℚ :=
  remainingAfterSolar demandKwh solarAvailableKwh
    - dischargeAmount demandKwh solarAvailableKwh gridPrice batteryLevel t

/-- `calculatePeakReduction` (part_000 lines 181-190); the source's local
`netDemand = demandKwh - solarKwh - batteryKwh` is written out inline, and
the `peakThreshold` constant is 40. -/
def calculatePeakReduction (demandKwh solarKwh batteryKwh : ℚ) : ℚ :=
  if 40 < demandKwh ∧ demandKwh - solarKwh - batteryKwh < 40 then
    ((demandKwh - (demandKwh - solarKwh - batteryKwh)) / demandKwh) * 100
  else 0

/-- `calculateGridStressReduction` (part_000 lines 192-195):
`(1 - gridKwh / totalDemand) * 100`.  The JS division is unguarded; with
`totalDemand = 0` it produces `NaN` (or `±Infinity`), modelled here as `none`. -/
def calculateGridStressReduction (gridKwh totalDemand : ℚ) : Option ℚ :=
  if totalDemand = 0 then none else some ((1 - gridKwh / totalDemand) * 100)

/-- `EnergyOptimizer.optimize` (part_000 lines 14-86). -/
def EnergyOptimizer.optimize (o : EnergyOptimizer)
    (demandKwh solarAvailableKwh gridPrice batteryLevel : ℚ) (timeOfUse : TOU) :
    OptimizationResult :=
  let solarKwh := solarUsed demandKwh solarAvailableKwh
  let batteryCharge := chargeAmount o demandKwh solarAvailableKwh batteryLevel
  let excessSolar := excessAfterCharge o demandKwh solarAvailableKwh batteryLevel
  let batteryDischarge := dischargeAmount demandKwh solarAvailableKwh gridPrice batteryLevel timeOfUse
  let gridKwh := gridAmount demandKwh solarAvailableKwh gridPrice batteryLevel timeOfUse
  let adj := adjustedPrice gridPrice timeOfUse
  { gridKwh := round2 gridKwh
    solarKwh := round2 solarKwh
    batteryKwh := round2 batteryDischarge
    batteryCharge := round2 batteryCharge
    excessSolar := round2 excessSolar
    totalCost := round2 (gridKwh * adj)
    carbonSaved := round2 ((solarKwh + batteryDischarge) * o.gridCarbonIntensity)
    renewablePercentage :=
      round1 (if 0 < demandKwh then ((solarKwh + batteryDischarge) / demandKwh) * 100 else 0)
    peakDemandReduction := round1 (calculatePeakReduction demandKwh solarKwh batteryDischarge)
    gridStressReduction := (calculateGridStressReduction gridKwh demandKwh).map round1
    timeOfUse := timeOfUse
    adjustedGridPrice := round3 adj
    batteryLevel := none }

/-- `optimizeDayAhead` (part_000 lines 89-119), with the unrounded threaded
battery level paired with each period's result.  The JS source indexes
`solarForecasts[i]`, `gridPrices[i]`, `timeOfUseSchedule[i]` while iterating
over `demands`; this is mirrored by consuming the heads of the parallel lists. -/
def optimizeDayAheadAux (o : EnergyOptimizer) :
    List ℚ → List ℚ → List ℚ → List TOU → ℚ → List (OptimizationResult × ℚ)
  | [], _, _, _, _ => []
  | d :: ds, solar, prices, tou, level =>
    let r := o.optimize d (solar.headD 0) (prices.headD 0) level (tou.headD .midPeak)
    let level' := max 0 (min o.batteryCapacity (level - r.batteryKwh + r.batteryCharge))
    ({ r with batteryLevel := some (round2 level') }, level')
      :: optimizeDayAheadAux o ds solar.tail prices.tail tou.tail level'

/-- `optimizeDayAhead` — the list of per-period results actually returned. -/
def optimizeDayAhead (o : EnergyOptimizer)
    (demands solarForecasts gridPrices : List ℚ) (touSchedule : List TOU)
    (initialBatteryLevel : ℚ) : List OptimizationResult :=
  (optimizeDayAheadAux o demands solarForecasts gridPrices touSchedule initialBatteryLevel).map
    Prod.fst

/-! ## Load shifting (part_000 lines 122-179) -/

/-- A flexible load `{name, kwh, timeWindow}`. -/
structure FlexLoad where
  name : String
  kwh : ℚ
  timeWindow : List ℕ
deriving DecidableEq

/-- One entry of `shiftedLoads`.  `savings` is `none` when no hour of the
window indexes a real period (the JS `bestCost` then stays `Infinity` and the
reported savings would be `-Infinity`, a non-finite value). -/
structure ShiftedLoad where
  name : String
  originalHour : ℕ
  optimalHour : ℕ
  savings : Option ℚ
deriving DecidableEq

/-- `calculateLoadCost` (part_000 lines 166-179):
`Math.max(0, demands[hour] + loadKwh - solarForecasts[hour]) * gridPrices[hour]`. -/
def calculateLoadCost (loadKwh : ℚ) (hour : ℕ)
    (demands solarForecasts gridPrices : List ℚ) : ℚ :=
  max 0 (demands.getD hour 0 + loadKwh - solarForecasts.getD hour 0) * gridPrices.getD hour 0

/-- The body of the `timeWindow.forEach` search loop of `optimizeLoadShifting`
(part_000 lines 136-144): keep the best (hour, cost) pair seen so far;
`none` models the initial `bestCost = Infinity` (so the first in-range hour
always installs itself, mirroring `cost < Infinity`). -/
def bestStep (n : ℕ) (c : ℕ → ℚ) (best : ℕ × Option ℚ) (hour : ℕ) : ℕ × Option ℚ :=
  if hour < n then
    match best.2 with
    | none => (hour, some (c hour))
    | some b => if c hour < b then (hour, some (c hour)) else best
  else best

/-- The `timeWindow.forEach` search loop of `optimizeLoadShifting`
(part_000 lines 132-144), folded with `bestStep`. -/
def findBestHour (load : FlexLoad) (demands solarForecasts gridPrices : List ℚ) :
    ℕ × Option ℚ :=
  load.timeWindow.foldl
    (bestStep demands.length
      (fun hour => calculateLoadCost load.kwh hour demands solarForecasts gridPrices))
    (load.timeWindow.headD 0, none)

/-- The per-load body of `optimizeLoadShifting` (part_000 lines 131-158). -/
def shiftLoad (load : FlexLoad) (demands solarForecasts gridPrices : List ℚ) : ShiftedLoad :=
  let best := findBestHour load demands solarForecasts gridPrices
  let originalCost :=
    calculateLoadCost load.kwh (load.timeWindow.headD 0) demands solarForecasts gridPrices
  { name := load.name
    originalHour := load.timeWindow.headD 0
    optimalHour := best.1
    savings := best.2.map fun b => round2 (originalCost - b) }

/-- `optimizeLoadShifting` (part_000 lines 122-164).  `totalSavings` sums the
unrounded per-load savings and rounds once (the degenerate all-hours-out-of-range
load contributes `0` here where JS would contribute `-Infinity`). -/
def optimizeLoadShifting (flexibleLoads : List FlexLoad)
    (demands solarForecasts gridPrices : List ℚ) : List ShiftedLoad × ℚ :=
  (flexibleLoads.map fun load => shiftLoad load demands solarForecasts gridPrices,
   round2 ((flexibleLoads.map fun load =>
      ((findBestHour load demands solarForecasts gridPrices).2.map
        (calculateLoadCost load.kwh (load.timeWindow.headD 0) demands solarForecasts gridPrices
          - ·)).getD 0).sum))

/-! ## Shared sample type (src/project/src/types/energy.ts, `EnergyData`) -/

structure EnergyData where
  timestamp : ℕ
  kwh : ℚ
  temperature : ℚ
  irradiance : ℚ
  windSpeed : ℚ
  occupancy : ℚ
  solarGeneration : Option ℚ
deriving DecidableEq

instance : Inhabited EnergyData := ⟨⟨0, 0, 0, 0, 0, 0, none⟩⟩

/-- `new Date(ts).getHours()`; timestamps are integral hours since an epoch
taken at midnight on a Sunday, so the hour of day is `ts % 24`. -/
def getHours (ts : ℕ) : ℕ := ts % 24

/-- `new Date(ts).getDay()` under the same timestamp convention. -/
def getDay (ts : ℕ) : ℕ := ts / 24 % 7

/-- `data.slice(a, b)` for the in-range uses appearing in the detector
(`0 ≤ a ≤ b ≤ data.length`). -/
def slice (data : List EnergyData) (a b : ℕ) : List EnergyData :=
  (data.drop a).take (b - a)

/-- `values.reduce((sum, v) => sum + v, 0) / values.length`. -/
def meanQ (vs : List ℚ) : ℚ := vs.sum / vs.length

/-- `values.sort((a, b) => a - b)` — ascending numeric sort. -/
def sortQ (vs : List ℚ) : List ℚ := vs.mergeSort (fun a b => decide (a ≤ b))

/-! ## AnomalyDetector (src/unnamed/part_000, class `AnomalyDetector`) -/

inductive Severity where
  | low
  | medium
  | high
deriving DecidableEq, Repr

inductive AnomalyType where
  | spike
  | drop
  | sustained
  | pattern
deriving DecidableEq, Repr

inductive Sensitivity where
  | low
  | medium
  | high
deriving DecidableEq, Repr

/-- `AnomalyData` (types/energy.ts): `type` and `confidence` are optional. -/
structure AnomalyData where
  timestamp : ℕ
  value : ℚ
  isAnomaly : Bool
  severity : Severity
  type : Option AnomalyType
  confidence : Option ℚ
deriving DecidableEq

instance : Inhabited AnomalyData := ⟨⟨0, 0, false, .low, none, none⟩⟩

/-- The sub-detectors' "not anomalous" early return (`{..., isAnomaly: false,
severity: 'low'}` with `type`/`confidence` absent). -/
def notAnomalous (current : EnergyData) : AnomalyData :=
  ⟨current.timestamp, current.kwh, false, .low, none, none⟩

/-- The instance's `historicalBaseline : Map<string, number>`; the JS key
`` `${day}-${hours}` `` is the pair `(day, hours)` (the string encoding is
injective on day ∈ 0..6, hours ∈ 0..23), and `Map.get` returning `undefined`
is `none`. -/
def Baseline := ℕ × ℕ → Option ℚ

/-- The constructor's `new Map()`. -/
def emptyBaseline : Baseline := fun _ => none

/-- The key `` `${dt.getDay()}-${dt.getHours()}` `` for one sample. -/
def sampleKey (d : EnergyData) : ℕ × ℕ := (getDay d.timestamp, getHours d.timestamp)

/-- `values.sort(...)[Math.floor(values.length / 2)]` (part_000 lines 310-313). -/
def medianOf (vs : List ℚ) : ℚ := (sortQ vs).getD (vs.length / 2) 0

/-- `buildHistoricalBaseline` (part_000 lines 295-315), with the instance map
threaded explicitly.  The imperative loop groups samples by key and calls
`Map.set(key, median(bucket))` once per key occurring in `data`; as a map it
therefore sends every key occurring in `data` to the median of its bucket and
leaves any other (previously set) key unchanged — `Map.set` never removes
entries. -/
def buildHistoricalBaseline (m : Baseline) (data : List EnergyData) : Baseline :=
  fun k =>
    if (data.map sampleKey).contains k then
      some (medianOf ((data.filter (fun d => sampleKey d == k)).map (·.kwh)))
    else m k

/-- The per-sensitivity z-score cutoffs (part_000 lines 325-329). -/
structure Thresholds where
  high : ℚ
  medium : ℚ
  low : ℚ

def sensitivityThresholds : Sensitivity → Thresholds
  | .low => ⟨2, 5/2, 3⟩
  | .medium => ⟨9/5, 11/5, 14/5⟩
  | .high => ⟨3/2, 2, 5/2⟩

/-- The statistical detector's test `zScore > c` where
`zScore = Math.abs((current - mean) / (stdDev + 0.001))` and
`stdDev = Math.sqrt(variance)` (part_000 lines 321-323).  `ℚ` has no exact
square root, so the test is expressed by the equivalent comparison of squares;
`zScoreExceeds_iff_sqrt` below proves it equal to the source formula
interpreted in `ℝ`. -/
def zScoreExceeds (x mean variance c : ℚ) : Bool :=
  decide (0 < |x - mean| - c * (1/1000)
    ∧ c^2 * variance < (|x - mean| - c * (1/1000))^2)

/-- `detectStatisticalAnomaly` (part_000 lines 317-354).  Note the source
compares `zScore` against `threshold.high`, then `threshold.medium`, then
`threshold.low` in that order — since `high < medium < low` numerically, any
flagged sample gets severity `high`; the dead branches are kept as written. -/
def detectStatisticalAnomaly (s : Sensitivity) (current : EnergyData)
    (window : List EnergyData) : AnomalyData :=
  let values := window.map (·.kwh)
  let mean := meanQ values
  let variance := meanQ (values.map fun v => (v - mean)^2)
  let t := sensitivityThresholds s
  let flagged :=
    if zScoreExceeds current.kwh mean variance t.high then (true, Severity.high)
    else if zScoreExceeds current.kwh mean variance t.medium then (true, Severity.medium)
    else if zScoreExceeds current.kwh mean variance t.low then (true, Severity.low)
    else (false, Severity.low)
  { timestamp := current.timestamp
    value := current.kwh
    isAnomaly := flagged.1
    severity := flagged.2
    type := some (if mean < current.kwh then .spike else .drop)
    confidence := none }

/-- `detectPatternAnomaly` (part_000 lines 356-393).  The JS falsy test
`if (!expectedValue)` abstains both when the key is absent (`undefined`) and
when the stored median is `0`. -/
def detectPatternAnomaly (m : Baseline) (current : EnergyData) : AnomalyData :=
  match m (sampleKey current) with
  | none => notAnomalous current
  | some expectedValue =>
    if expectedValue = 0 then notAnomalous current
    else
      let deviation := |current.kwh - expectedValue| / expectedValue
      let flagged :=
        if 1/2 < deviation then (true, Severity.high)
        else if 3/10 < deviation then (true, Severity.medium)
        else if 1/5 < deviation then (true, Severity.low)
        else (false, Severity.low)
      { timestamp := current.timestamp
        value := current.kwh
        isAnomaly := flagged.1
        severity := flagged.2
        type := some .pattern
        confidence := none }

/-- `hour >= 8 && hour <= 18` (part_000 lines 399, 405). -/
def isBusinessHourOf (d : EnergyData) : Bool :=
  decide (8 ≤ getHours d.timestamp ∧ getHours d.timestamp ≤ 18)

/-- `calculateExpectedRange` (part_000 lines 507-517): Tukey IQR fence with
`q1 = sorted[Math.floor(n*0.25)]`, `q3 = sorted[Math.floor(n*0.75)]`
(`n*0.25` and `n*0.75` are exact in floating point, so the floors are
`n / 4` and `3 * n / 4`). -/
def calculateExpectedRange (data : List EnergyData) : ℚ × ℚ :=
  let values := sortQ (data.map (·.kwh))
  let q1 := values.getD (values.length / 4) 0
  let q3 := values.getD (values.length * 3 / 4) 0
  let iqr := q3 - q1
  (q1 - 3/2 * iqr, q3 + 3/2 * iqr)

/-- `detectContextualAnomaly` (part_000 lines 395-443). -/
def detectContextualAnomaly (current : EnergyData) (window : List EnergyData) : AnomalyData :=
  let similarConditions := window.filter fun d =>
    decide (|d.temperature - current.temperature| < 5
        ∧ |d.occupancy - current.occupancy| < 1/5)
      && (isBusinessHourOf d == isBusinessHourOf current)
  if similarConditions.length < 3 then notAnomalous current
  else
    let expectedRange := calculateExpectedRange similarConditions
    let deviation := min (|current.kwh - expectedRange.1| / expectedRange.1)
      (|current.kwh - expectedRange.2| / expectedRange.2)
    let severity :=
      if current.kwh < expectedRange.1 ∨ expectedRange.2 < current.kwh then
        if 2/5 < deviation then Severity.high
        else if 1/4 < deviation then Severity.medium
        else Severity.low
      else Severity.low
    { timestamp := current.timestamp
      value := current.kwh
      isAnomaly := decide (current.kwh < expectedRange.1 ∨ expectedRange.2 < current.kwh)
      severity := severity
      type := some .pattern
      confidence := none }

/-- `detectEquipmentAnomaly` (part_000 lines 445-505): drop below
`0.4 × trailing mean`, spike above `2.0 × trailing mean`, sustained when all
of trailing + current exceed `1.3 ×` or stay below `0.7 ×` the mean. -/
def detectEquipmentAnomaly (current : EnergyData) (recentData : List EnergyData) :
    AnomalyData :=
  if recentData.length < 3 then notAnomalous current
  else
    let recentValues := recentData.map (·.kwh)
    let avgRecent := meanQ recentValues
    if current.kwh < avgRecent * (2/5) then
      ⟨current.timestamp, current.kwh, true, .high, some .drop, none⟩
    else if avgRecent * 2 < current.kwh then
      ⟨current.timestamp, current.kwh, true, .high, some .spike, none⟩
    else
      let allHigh := (recentValues ++ [current.kwh]).all fun v =>
        decide (avgRecent * (13/10) < v)
      let allLow := (recentValues ++ [current.kwh]).all fun v =>
        decide (v < avgRecent * (7/10))
      if allHigh || allLow then
        ⟨current.timestamp, current.kwh, true, .medium, some .sustained, none⟩
      else notAnomalous current

/-- `getSeverityScore` (part_000 lines 519-526). -/
def getSeverityScore : Severity → ℕ
  | .high => 3
  | .medium => 2
  | .low => 1

/-- `calculateAnomalyConfidence` (part_000 lines 528-536). -/
def calculateAnomalyConfidence (anomalies : List AnomalyData) : ℚ :=
  if anomalies.length = 0 then 0
  else
    let severityScores := anomalies.map fun a => (getSeverityScore a.severity : ℚ)
    let avgSeverity := meanQ severityScores
    let agreementFactor : ℚ := (anomalies.length : ℚ) / 4
    min (98/100) (1/2 + avgSeverity / 3 * (3/10) + agreementFactor * (1/5))

/-- The `reduce` combiner of `detectAnomalies` (part_000 lines 269-271):
`getSeverityScore(curr) > getSeverityScore(prev) ? curr : prev`. -/
def pickMostSevere (prev curr : AnomalyData) : AnomalyData :=
  if getSeverityScore prev.severity < getSeverityScore curr.severity then curr else prev

/-- The four sub-detector results evaluated for scored index `i`
(part_000 lines 254-264).  The statistical and contextual detectors receive
`data.slice(i - windowSize, i)`; the equipment detector receives
`data.slice(Math.max(0, i - 6), i)` (truncated subtraction on `ℕ` is exactly
the `max(0, ·)` guard).  `detectPatternAnomaly` receives the whole data array
in JS but reads only the current sample and the baseline map. -/
def subResults (s : Sensitivity) (m : Baseline) (data : List EnergyData) (w i : ℕ) :
    List AnomalyData :=
  [detectStatisticalAnomaly s (data.getD i default) (slice data (i - w) i),
   detectPatternAnomaly m (data.getD i default),
   detectContextualAnomaly (data.getD i default) (slice data (i - w) i),
   detectEquipmentAnomaly (data.getD i default) (slice data (i - 6) i)]

/-- The per-sample body of the `detectAnomalies` loop (part_000 lines 264-289):
filter the flagged sub-results, keep the most severe (first wins on ties), or
record a non-anomaly with confidence 0.95. -/
def scoreAt (s : Sensitivity) (m : Baseline) (data : List EnergyData) (w i : ℕ) :
    AnomalyData :=
  match (subResults s m data w i).filter (·.isAnomaly) with
  | [] =>
    ⟨(data.getD i default).timestamp, (data.getD i default).kwh, false, .low, none,
      some (19/20)⟩
  | x :: xs =>
    let mostSevere := xs.foldl pickMostSevere x
    ⟨(data.getD i default).timestamp, (data.getD i default).kwh, true,
      mostSevere.severity, mostSevere.type,
      some (calculateAnomalyConfidence ((subResults s m data w i).filter (·.isAnomaly)))⟩

/-- `detectAnomalies` (part_000 lines 247-293) with the instance's baseline
map threaded explicitly: rebuild the baseline from the full input, then score
indices `max(windowSize, 24) … data.length - 1` in order. -/
def detectAnomaliesWithMap (s : Sensitivity) (m : Baseline) (data : List EnergyData)
    (w : ℕ) : Baseline × List AnomalyData :=
  (buildHistoricalBaseline m data,
   (List.range' (max w 24) (data.length - max w 24)).map
     (scoreAt s (buildHistoricalBaseline m data) data w))

/-- `ForecastResult` (types/energy.ts); the optional fields
(`forecastHorizon`, `uncertaintyBand`) are never produced by
`forecastNextHour` and are omitted.  `confidence` is `none` when the JS
computation yields `NaN` (see `calculateConfidence`): `Math.max(0.65, NaN)`
and `Math.min(0.98, NaN)` are both `NaN`, so the clamps do not recover a
finite value. -/
structure ForecastResult where
  nextHourDemand : ℝ
  solarAvailable : ℝ
  confidence : Option ℝ

/-- The forecaster's only failure mode: `throw new Error('Need at least 48
hours of data for accurate forecasting')` (forecasting.ts lines 12-14). -/
inductive FError where
  | insufficientHistory
deriving DecidableEq

/-- `historicalPatternForecast` (forecasting.ts lines 55-86). -/
def historicalPatternForecast (data : List EnergyData) : ℚ :=
  let latest := data.getLastD default
  let hour := getHours latest.timestamp
  let dayOfWeek := getDay latest.timestamp
  let similarPeriods := data.filter fun d =>
    getHours d.timestamp == hour && getDay d.timestamp == dayOfWeek
  if similarPeriods.length < 3 then
    let sameHour := data.filter fun d => getHours d.timestamp == hour
    if 0 < sameHour.length then meanQ (sameHour.map (·.kwh))
    else latest.kwh
  else
    let lastTen := similarPeriods.drop (similarPeriods.length - 10)
    let weightedSum := (lastTen.enum.map fun p => p.2.kwh * (11/10)^p.1).sum
    let totalWeight := (lastTen.enum.map fun p => ((11/10 : ℚ))^p.1).sum
    weightedSum / totalWeight

/-- `trendBasedForecast` (forecasting.ts lines 88-104): ordinary least squares
over the last 24 samples, extrapolated one step. -/
def trendBasedForecast (data : List EnergyData) : ℚ :=
  let values := (data.drop (data.length - 24)).map (·.kwh)
  let n : ℚ := values.length
  let x := (List.range values.length).map fun i => (i : ℚ)
  let sumX := x.sum
  let sumY := values.sum
  let sumXY := ((x.zip values).map fun p => p.1 * p.2).sum
  let sumXX := (x.map fun xi => xi * xi).sum
  let slope := (n * sumXY - sumX * sumY) / (n * sumXX - sumX * sumX)
  let intercept := (sumY - slope * sumX) / n
  intercept + slope * n

/-- `weatherBasedForecast` (forecasting.ts lines 106-121). -/
def weatherBasedForecast (data : List EnergyData) : ℚ :=
  let latest := data.getLastD default
  let recent := data.drop (data.length - 48)
  let similarWeather := recent.filter fun d =>
    decide (|d.temperature - latest.temperature| < 3 ∧ |d.irradiance - latest.irradiance| < 100)
  if similarWeather.length < 3 then latest.kwh
  else meanQ (similarWeather.map (·.kwh))

/-- `occupancyBasedForecast` (forecasting.ts lines 123-141): sinusoidal
occupancy model for the next hour converted to load `25 + occupancy * 15`.
(The JS function also receives `data` and binds its last element, unused.) -/
noncomputable def occupancyBasedForecast (_data : List EnergyData) (hour : ℕ)
    (isWeekend : Bool) : ℝ :=
  let nextHour := (hour + 1) % 24
  let nextOccupancy : ℝ :=
    if isWeekend = false ∧ 7 ≤ nextHour ∧ nextHour ≤ 19 then
      min 1 (1/10 + 9/10 * Real.sin (Real.pi * ((nextHour : ℝ) - 7) / 12))
    else if isWeekend = true ∧ 9 ≤ nextHour ∧ nextHour ≤ 17 then
      3/10 + 2/10 * Real.sin (Real.pi * ((nextHour : ℝ) - 9) / 8)
    else 0
  25 + nextOccupancy * 15

/-- `forecastSolarGeneration` (forecasting.ts lines 143-172). -/
noncomputable def forecastSolarGeneration (data : List EnergyData) : ℝ :=
  let latest := data.getLastD default
  let nextHour := (getHours latest.timestamp + 1) % 24
  if nextHour < 6 ∨ 18 < nextHour then 0
  else
    let timeOfDayFactor := Real.sin (Real.pi * ((nextHour : ℝ) - 6) / 12)
    let predicted := (latest.irradiance : ℝ) * (8/10) + 800 * timeOfDayFactor * (2/10)
    let predictedIrradiance := if latest.irradiance < 200 then predicted * (7/10) else predicted
    let panelEfficiency : ℝ := 18/100
    let panelArea : ℝ := 100
    let temperatureDerating : ℝ := max (7/10) (1 - ((latest.temperature : ℝ) - 25) * (4/1000))
    (predictedIrradiance / 1000) * panelArea * panelEfficiency * temperatureDerating

/-- `calculateRecentVariability` (forecasting.ts lines 199-210): mean absolute
step change of consumption. -/
def calculateRecentVariability (data : List EnergyData) : ℚ :=
  if data.length < 2 then 0
  else
    let values := data.map (·.kwh)
    let changes := (values.zip values.tail).map fun p => |p.2 - p.1|
    meanQ changes

/-- `calculateWeatherConsistency` (forecasting.ts lines 212-232). -/
def calculateWeatherConsistency (data : List EnergyData) : ℚ :=
  if data.length < 6 then 1/2
  else
    let recent6 := data.drop (data.length - 6)
    let tempChanges := (recent6.zip recent6.tail).map fun p =>
      |p.2.temperature - p.1.temperature|
    let irradianceChanges := (recent6.zip recent6.tail).map fun p =>
      |p.2.irradiance - p.1.irradiance|
    let tempConsistency := max 0 (1 - meanQ tempChanges / 10)
    let irradianceConsistency := max 0 (1 - meanQ irradianceChanges / 500)
    (tempConsistency + irradianceConsistency) / 2

/-- `calculateConfidence` (forecasting.ts lines 174-197).  The source computes
`coefficientOfVariation = Math.sqrt(variance) / mean` with no guard on `mean`.
When the window is empty, `mean` is already `0/0 = NaN`; when `mean = 0` and
`variance = 0` (identically-zero consumption) the division is `0/0 = NaN` —
in both cases the `NaN` propagates through `Math.max(0, 1 - NaN)` and the
weighted sum, so the function returns `NaN`, modelled as `none`.  When
`mean = 0` but `variance > 0` (values cancelling to zero) the division is
`Math.sqrt(variance) / +0 = +Infinity` and `Math.max(0, 1 - Infinity) = 0`,
so the stability term contributes `0` and the result is finite; every other
path is finite. -/
noncomputable def calculateConfidence (data : List EnergyData) : Option ℝ :=
  let recent := data.drop (data.length - 48)
  let values := recent.map (·.kwh)
  let mean := meanQ values
  let variance := meanQ (values.map fun v => (v - mean)^2)
  if values.length = 0 ∨ (mean = 0 ∧ variance = 0) then none
  else
    let stabilityScore : ℝ :=
      if mean = 0 then 0 else max 0 (1 - Real.sqrt (variance : ℝ) / (mean : ℝ))
    let qualityScore : ℝ := (recent.length : ℝ) / 48
    let consistencyScore : ℝ := 1 - (calculateRecentVariability recent : ℝ) / 100
    let weatherScore : ℝ := (calculateWeatherConsistency recent : ℝ)
    some (stabilityScore * (3/10) + qualityScore * (2/10) + consistencyScore * (3/10)
      + weatherScore * (2/10))

/-- The successful payload of `forecastNextHour` (forecasting.ts lines 16-52):
ensemble with weights 0.35 / 0.25 / 0.25 / 0.15, demand floor 5, solar floor 0,
confidence clamped to `[0.65, 0.98]`. -/
noncomputable def forecastResult (data : List EnergyData) : ForecastResult :=
  let latest := data.getLastD default
  let hour := getHours latest.timestamp
  let dayOfWeek := getDay latest.timestamp
  let isWeekend := dayOfWeek == 0 || dayOfWeek == 6
  let nextHourDemand : ℝ :=
    (35/100) * (historicalPatternForecast data : ℝ)
      + (25/100) * (trendBasedForecast data : ℝ)
      + (25/100) * (weatherBasedForecast data : ℝ)
      + (15/100) * occupancyBasedForecast data hour isWeekend
  { nextHourDemand := max 5 nextHourDemand
    solarAvailable := max 0 (forecastSolarGeneration data)
    confidence := (calculateConfidence data).map fun c => min (98/100) (max (65/100) c) }

/-- `forecastNextHour` (forecasting.ts lines 11-53): throws when fewer than 48
samples are supplied, otherwise returns the forecast payload. -/
noncomputable def forecastNextHour (data : List EnergyData) :
    Except FError ForecastResult :=
  if data.length < 48 then .error .insufficientHistory
  else .ok (forecastResult data)

/-! ## Supporting lemmas about rounding -/

theorem round_nonneg {a : ℚ} (h : 0 ≤ a) : 0 ≤ round a := by
  rw [round_eq]
  exact Int.le_floor.mpr (by push_cast; linarith)

theorem round_le_round {a b : ℚ} (h : a ≤ b) : round a ≤ round b := by
  rw [round_eq, round_eq]
  exact Int.floor_mono (by linarith)

theorem round2_err (a : ℚ) : |round2 a - a| ≤ 1/200 := by
  have h := abs_sub_round (a * 100)
  rw [abs_sub_comm] at h
  unfold round2
  have e : (round (a * 100) : ℚ) / 100 - a = ((round (a * 100) : ℚ) - a * 100) / 100 := by
    ring
  rw [e, abs_div, abs_of_pos (by norm_num : (0:ℚ) < 100)]
  linarith

theorem round2_nonneg {a : ℚ} (h : 0 ≤ a) : 0 ≤ round2 a := by
  unfold round2
  have h1 : (0:ℤ) ≤ round (a * 100) := round_nonneg (by linarith)
  have h2 : (0:ℚ) ≤ (round (a * 100) : ℚ) := by exact_mod_cast h1
  positivity

theorem round2_zero : round2 0 = 0 := by
  unfold round2
  simp

theorem round1_mem_Icc {a : ℚ} (h0 : 0 ≤ a) (h100 : a ≤ 100) :
    0 ≤ round1 a ∧ round1 a ≤ 100 := by
  unfold round1
  constructor
  · have h1 : (0:ℤ) ≤ round (a * 10) := round_nonneg (by linarith)
    have h2 : (0:ℚ) ≤ (round (a * 10) : ℚ) := by exact_mod_cast h1
    positivity
  · have h1 : round (a * 10) ≤ round ((1000 : ℤ) : ℚ) := round_le_round (by push_cast; linarith)
    rw [round_intCast] at h1
    have h2 : (round (a * 10) : ℚ) ≤ 1000 := by exact_mod_cast h1
    linarith

theorem round1_zero : round1 0 = 0 := by
  unfold round1
  simp

theorem threeRoundBalance (su bd d : ℚ) :
    |round2 su + round2 bd + round2 (d - su - bd) - d| ≤ 3/200 := by
  have h1 := round2_err su
  have h2 := round2_err bd
  have h3 := round2_err (d - su - bd)
  have e : round2 su + round2 bd + round2 (d - su - bd) - d
      = (round2 su - su) + (round2 bd - bd) + (round2 (d - su - bd) - (d - su - bd)) := by
    ring
  rw [e]
  have a1 := abs_add ((round2 su - su) + (round2 bd - bd)) (round2 (d - su - bd) - (d - su - bd))
  have a2 := abs_add (round2 su - su) (round2 bd - bd)
  linarith

/-! ## Projection lemmas for `optimize` -/

theorem optimize_solarKwh (o : EnergyOptimizer) (d s p lvl : ℚ) (t : TOU) :
    (o.optimize d s p lvl t).solarKwh = round2 (solarUsed d s) := rfl

theorem optimize_batteryKwh (o : EnergyOptimizer) (d s p lvl : ℚ) (t : TOU) :
    (o.optimize d s p lvl t).batteryKwh = round2 (dischargeAmount d s p lvl t) := rfl

theorem optimize_batteryCharge (o : EnergyOptimizer) (d s p lvl : ℚ) (t : TOU) :
    (o.optimize d s p lvl t).batteryCharge = round2 (chargeAmount o d s lvl) := rfl

theorem optimize_gridKwh (o : EnergyOptimizer) (d s p lvl : ℚ) (t : TOU) :
    (o.optimize d s p lvl t).gridKwh = round2 (gridAmount d s p lvl t) := rfl

theorem optimize_renewablePercentage (o : EnergyOptimizer) (d s p lvl : ℚ) (t : TOU) :
    (o.optimize d s p lvl t).renewablePercentage
      = round1 (if 0 < d then ((solarUsed d s + dischargeAmount d s p lvl t) / d) * 100 else 0) :=
  rfl

theorem optimize_peakDemandReduction (o : EnergyOptimizer) (d s p lvl : ℚ) (t : TOU) :
    (o.optimize d s p lvl t).peakDemandReduction
      = round1 (calculatePeakReduction d (solarUsed d s) (dischargeAmount d s p lvl t)) := rfl

theorem optimize_gridStressReduction (o : EnergyOptimizer) (d s p lvl : ℚ) (t : TOU) :
    (o.optimize d s p lvl t).gridStressReduction
      = (calculateGridStressReduction (gridAmount d s p lvl t) d).map round1 := rfl

/-! ## Facts about the dispatch quantities -/

theorem solarUsed_nonneg {d s : ℚ} (hd : 0 ≤ d) (hs : 0 ≤ s) : 0 ≤ solarUsed d s :=
  le_min hs hd

theorem solarUsed_le_demand (d s : ℚ) : solarUsed d s ≤ d := min_le_right s d

theorem dischargeAmount_nonneg (d s p lvl : ℚ) (t : TOU) : 0 ≤ dischargeAmount d s p lvl t := by
  unfold dischargeAmount
  split
  · rename_i h
    split
    · exact le_min (le_of_lt h.1) (le_of_lt h.2)
    · exact le_refl 0
  · exact le_refl 0

theorem dischargeAmount_le_remaining (d s p lvl : ℚ) (t : TOU) :
    dischargeAmount d s p lvl t ≤ remainingAfterSolar d s := by
  unfold dischargeAmount
  split
  · split
    · exact min_le_left _ _
    · unfold remainingAfterSolar solarUsed
      have := min_le_right s d
      linarith
  · unfold remainingAfterSolar solarUsed
    have := min_le_right s d
    linarith

/-- C1 — For every `optimize` call, `solar_kwh + batteryKwh + grid_kwh` equals
the input demand up to the rounding of the three reported values (each field
is rounded to 2 decimals, so the sum is within `3/200` of the demand; the
unrounded quantities balance exactly because the grid serves the residual). -/
theorem C1_energy_balance (o : EnergyOptimizer) (d s p lvl : ℚ) (t : TOU) :
    |(o.optimize d s p lvl t).solarKwh + (o.optimize d s p lvl t).batteryKwh
      + (o.optimize d s p lvl t).gridKwh - d| ≤ 3/200 := by
  rw [optimize_solarKwh, optimize_batteryKwh, optimize_gridKwh]
  have e : gridAmount d s p lvl t = d - solarUsed d s - dischargeAmount d s p lvl t := by
    unfold gridAmount remainingAfterSolar
    ring
  rw [e]
  exact threeRoundBalance _ _ _

/-- C2 (corrected) — the battery can fail to discharge even when
`tou_period = peak` (and the effective price exceeds 0.15): with demand 50
fully covered by solar 50 and battery 25, no discharge happens at peak, so
"discharges if and only if peak or effective price > 0.15" is false as stated. -/
theorem C2_counterexample :
    ¬ (0 < (defaultOptimizer.optimize 50 50 (12/100) 25 .peak).batteryKwh
        ↔ (TOU.peak = TOU.peak ∨ (3:ℚ)/20 < (12/100 : ℚ) * TOU.peak.multiplier)) := by
  with_unfolding_all decide

/-- C2 (amended) — in every `optimize` call the battery discharge equals
`min(remaining_demand, battery_level)` exactly when remaining demand and
battery level are positive AND (`tou_period = peak` or the effective price
exceeds 0.15), and is zero otherwise; moreover the two spec examples hold:
demand 50 / solar 10 / battery 25 / price 0.12 off-peak gives solar 10,
battery 0, grid 40, cost 2.88, and demand 50 / solar 30 / battery 25 /
price 0.12 peak gives solar 30, battery discharge 20, grid 0, cost 0. -/
theorem C2_battery_discharge_rule :
    (∀ (o : EnergyOptimizer) (d s p lvl : ℚ) (t : TOU),
      (o.optimize d s p lvl t).batteryKwh =
        round2 (if (0 < d - min s d ∧ 0 < lvl) ∧ (t = .peak ∨ (3:ℚ)/20 < p * t.multiplier)
                then min (d - min s d) lvl else 0))
    ∧ ((defaultOptimizer.optimize 50 10 (12/100) 25 .offPeak).solarKwh = 10
        ∧ (defaultOptimizer.optimize 50 10 (12/100) 25 .offPeak).batteryKwh = 0
        ∧ (defaultOptimizer.optimize 50 10 (12/100) 25 .offPeak).gridKwh = 40
        ∧ (defaultOptimizer.optimize 50 10 (12/100) 25 .offPeak).totalCost = 72/25)
    ∧ ((defaultOptimizer.optimize 50 30 (12/100) 25 .peak).solarKwh = 30
        ∧ (defaultOptimizer.optimize 50 30 (12/100) 25 .peak).batteryKwh = 20
        ∧ (defaultOptimizer.optimize 50 30 (12/100) 25 .peak).gridKwh = 0
        ∧ (defaultOptimizer.optimize 50 30 (12/100) 25 .peak).totalCost = 0) := by
  refine ⟨?_, by with_unfolding_all decide, by with_unfolding_all decide⟩
  intro o d s p lvl t
  rw [optimize_batteryKwh]
  congr 1
  unfold dischargeAmount remainingAfterSolar solarUsed adjustedPrice
  by_cases h1 : 0 < d - min s d ∧ 0 < lvl
  · by_cases h2 : t = TOU.peak ∨ (3:ℚ)/20 < p * t.multiplier
    · rw [if_pos h1, if_pos h2, if_pos ⟨h1, h2⟩]
    · rw [if_pos h1, if_neg h2, if_neg (by tauto)]
  · rw [if_neg h1, if_neg (by tauto)]

/-- C10 — battery charging and discharging are mutually exclusive in a single
`optimize` call: a positive reported charge forces zero discharge and a
positive reported discharge forces zero charge (excess solar exists only when
solar covers all demand, and discharge only when demand remains after solar). -/
theorem C10_charge_discharge_exclusive (o : EnergyOptimizer) (d s p lvl : ℚ) (t : TOU)
    (hd : 0 ≤ d) (hs : 0 ≤ s) (hl : 0 ≤ lvl) :
    (0 < (o.optimize d s p lvl t).batteryCharge → (o.optimize d s p lvl t).batteryKwh = 0)
    ∧ (0 < (o.optimize d s p lvl t).batteryKwh → (o.optimize d s p lvl t).batteryCharge = 0) := by
  rw [optimize_batteryCharge, optimize_batteryKwh]
  by_cases h : d ≤ s
  · have hmin : min s d = d := min_eq_right h
    have hrem : remainingAfterSolar d s = 0 := by
      unfold remainingAfterSolar solarUsed
      rw [hmin]
      ring
    have hdis : dischargeAmount d s p lvl t = 0 := by
      unfold dischargeAmount
      rw [hrem]
      simp
    rw [hdis, round2_zero]
    exact ⟨fun _ => rfl, fun h0 => absurd h0 (lt_irrefl 0)⟩
  · have hmin : min s d = s := min_eq_left (le_of_not_le h)
    have hexc : rawExcessSolar d s = 0 := by
      unfold rawExcessSolar solarUsed
      rw [hmin]
      ring
    have hch : chargeAmount o d s lvl = 0 := by
      unfold chargeAmount
      rw [hexc]
      simp
    rw [hch, round2_zero]
    exact ⟨fun h0 => absurd h0 (lt_irrefl 0), fun _ => rfl⟩

/-- C10 witness at a concrete input. -/
theorem C10_charge_discharge_exclusive_witness :
    ((0:ℚ) ≤ 50 ∧ (0:ℚ) ≤ 30 ∧ (0:ℚ) ≤ 25)
    ∧ ((0 < (defaultOptimizer.optimize 50 30 (12/100) 25 .peak).batteryCharge
        → (defaultOptimizer.optimize 50 30 (12/100) 25 .peak).batteryKwh = 0)
      ∧ (0 < (defaultOptimizer.optimize 50 30 (12/100) 25 .peak).batteryKwh
        → (defaultOptimizer.optimize 50 30 (12/100) 25 .peak).batteryCharge = 0)) :=
  ⟨⟨by norm_num, by norm_num, by norm_num⟩,
   C10_charge_discharge_exclusive defaultOptimizer 50 30 (12/100) 25 .peak
     (by norm_num) (by norm_num) (by norm_num)⟩

/-- C9 (corrected) — at demand 0 (allowed by the claim's `demand ≥ 0`) the
source computes `gridKwh / totalDemand` with `totalDemand = 0` (part_000
line 193), an unguarded division producing a non-finite value (`none` in this
embedding), so `grid_stress_reduction_pct` does not lie in `[0, 100]`; only
the renewable percentage is guarded (it is 0 there). -/
theorem C9_counterexample :
    (defaultOptimizer.optimize 0 0 (12/100) 25 .midPeak).gridStressReduction = none
    ∧ (defaultOptimizer.optimize 0 0 (12/100) 25 .midPeak).renewablePercentage = 0 := by
  with_unfolding_all decide

/-- C9 (amended) — for `optimize` calls with demand > 0, solar ≥ 0 and a
battery level within `[0, capacity]`, the returned `renewable_pct`,
`peak_reduction_pct` and `grid_stress_reduction_pct` all lie in `[0, 100]`;
at demand = 0 the explicit guard makes `renewable_pct = 0` while the
unguarded grid-stress division yields no finite value. -/
theorem C9_percentage_bounds (o : EnergyOptimizer) (d s p lvl : ℚ) (t : TOU)
    (hd : 0 ≤ d) (hs : 0 ≤ s) (hl : 0 ≤ lvl) (hlc : lvl ≤ o.batteryCapacity) :
    (0 < d →
      (0 ≤ (o.optimize d s p lvl t).renewablePercentage
        ∧ (o.optimize d s p lvl t).renewablePercentage ≤ 100)
      ∧ (0 ≤ (o.optimize d s p lvl t).peakDemandReduction
        ∧ (o.optimize d s p lvl t).peakDemandReduction ≤ 100)
      ∧ (∃ g, (o.optimize d s p lvl t).gridStressReduction = some g ∧ 0 ≤ g ∧ g ≤ 100))
    ∧ (d = 0 →
      (o.optimize d s p lvl t).renewablePercentage = 0
      ∧ (o.optimize d s p lvl t).gridStressReduction = none) := by
  have hsu0 : 0 ≤ solarUsed d s := solarUsed_nonneg hd hs
  have hsud : solarUsed d s ≤ d := solarUsed_le_demand d s
  have hbd0 : 0 ≤ dischargeAmount d s p lvl t := dischargeAmount_nonneg d s p lvl t
  have hbdr : dischargeAmount d s p lvl t ≤ remainingAfterSolar d s :=
    dischargeAmount_le_remaining d s p lvl t
  have hrem : remainingAfterSolar d s = d - solarUsed d s := by
    unfold remainingAfterSolar
    ring
  constructor
  · intro hdpos
    have hsum : solarUsed d s + dischargeAmount d s p lvl t ≤ d := by
      rw [hrem] at hbdr
      linarith
    refine ⟨?_, ?_, ?_⟩
    · rw [optimize_renewablePercentage, if_pos hdpos]
      exact round1_mem_Icc
        (by positivity)
        (by
          rw [div_mul_eq_mul_div, div_le_iff₀ hdpos]
          linarith)
    · rw [optimize_peakDemandReduction]
      unfold calculatePeakReduction
      split
      · refine round1_mem_Icc ?_ ?_
        · have e : d - (d - solarUsed d s - dischargeAmount d s p lvl t)
              = solarUsed d s + dischargeAmount d s p lvl t := by ring
          rw [e]
          positivity
        · rw [div_mul_eq_mul_div, div_le_iff₀ hdpos]
          nlinarith
      · rw [round1_zero]
        norm_num
    · rw [optimize_gridStressReduction]
      unfold calculateGridStressReduction
      rw [if_neg (by linarith)]
      refine ⟨round1 ((1 - gridAmount d s p lvl t / d) * 100), rfl, ?_⟩
      have hg : gridAmount d s p lvl t = d - solarUsed d s - dischargeAmount d s p lvl t := by
        unfold gridAmount
        rw [hrem]
      have hg0 : 0 ≤ gridAmount d s p lvl t := by
        rw [hg, ← hrem]
        linarith
      have hgd : gridAmount d s p lvl t ≤ d := by
        rw [hg]
        linarith
      refine round1_mem_Icc ?_ ?_
      · have : gridAmount d s p lvl t / d ≤ 1 := by
          rw [div_le_one hdpos]
          exact hgd
        nlinarith
      · have : 0 ≤ gridAmount d s p lvl t / d := by positivity
        nlinarith
  · intro hd0
    subst hd0
    constructor
    · rw [optimize_renewablePercentage, if_neg (lt_irrefl 0), round1_zero]
    · rw [optimize_gridStressReduction]
      unfold calculateGridStressReduction
      rw [if_pos rfl]
      rfl

/-- C9 witness at a concrete input. -/
theorem C9_percentage_bounds_witness :
    ((0:ℚ) ≤ 50 ∧ (0:ℚ) ≤ 30 ∧ (0:ℚ) ≤ 25
      ∧ (25:ℚ) ≤ defaultOptimizer.batteryCapacity)
    ∧ ((0 < (50:ℚ) →
      (0 ≤ (defaultOptimizer.optimize 50 30 (12/100) 25 .peak).renewablePercentage
        ∧ (defaultOptimizer.optimize 50 30 (12/100) 25 .peak).renewablePercentage ≤ 100)
      ∧ (0 ≤ (defaultOptimizer.optimize 50 30 (12/100) 25 .peak).peakDemandReduction
        ∧ (defaultOptimizer.optimize 50 30 (12/100) 25 .peak).peakDemandReduction ≤ 100)
      ∧ (∃ g, (defaultOptimizer.optimize 50 30 (12/100) 25 .peak).gridStressReduction = some g
          ∧ 0 ≤ g ∧ g ≤ 100))
    ∧ ((50:ℚ) = 0 →
      (defaultOptimizer.optimize 50 30 (12/100) 25 .peak).renewablePercentage = 0
      ∧ (defaultOptimizer.optimize 50 30 (12/100) 25 .peak).gridStressReduction = none)) :=
  ⟨⟨by norm_num, by norm_num, by norm_num, by norm_num [defaultOptimizer]⟩,
   C9_percentage_bounds defaultOptimizer 50 30 (12/100) 25 .peak
     (by norm_num) (by norm_num) (by norm_num) (by norm_num [defaultOptimizer])⟩

/-- C6 — the battery level threaded through `optimizeDayAhead` stays within
`[0, capacity]` after every step whenever the initial level is within
`[0, capacity]`: each step updates it to
`max(0, min(capacity, level - discharge + charge))`. -/
theorem C6_battery_level_invariant (o : EnergyOptimizer)
    (demands solarForecasts gridPrices : List ℚ) (touSchedule : List TOU) (init : ℚ)
    (h0 : 0 ≤ init) (hc : init ≤ o.batteryCapacity) :
    ∀ pr ∈ optimizeDayAheadAux o demands solarForecasts gridPrices touSchedule init,
      0 ≤ pr.2 ∧ pr.2 ≤ o.batteryCapacity := by
  induction demands generalizing solarForecasts gridPrices touSchedule init with
  | nil =>
    intro pr h
    simp [optimizeDayAheadAux] at h
  | cons d ds ih =>
    intro pr h
    have hcap : (0:ℚ) ≤ o.batteryCapacity := le_trans h0 hc
    rw [optimizeDayAheadAux] at h
    rcases List.mem_cons.mp h with h | h
    · subst h
      exact ⟨le_max_left 0 _, max_le hcap (min_le_left _ _)⟩
    · exact ih _ _ _ _ (le_max_left 0 _) (max_le hcap (min_le_left _ _)) _ h

/-- C6 witness at a concrete input. -/
theorem C6_battery_level_invariant_witness :
    ((0:ℚ) ≤ 25 ∧ (25:ℚ) ≤ defaultOptimizer.batteryCapacity)
    ∧ ∀ pr ∈ optimizeDayAheadAux defaultOptimizer [10, 60] [30, 0] [1/10, 2/10]
        [.midPeak, .peak] 25,
      0 ≤ pr.2 ∧ pr.2 ≤ defaultOptimizer.batteryCapacity :=
  ⟨⟨by norm_num, by norm_num [defaultOptimizer]⟩,
   C6_battery_level_invariant defaultOptimizer [10, 60] [30, 0] [1/10, 2/10]
     [.midPeak, .peak] 25 (by norm_num) (by norm_num [defaultOptimizer])⟩

/-! ## Load-shifting lemmas -/

theorem bestStep_none (n : ℕ) (c : ℕ → ℚ) (bh hd : ℕ) (hhd : hd < n) :
    bestStep n c (bh, none) hd = (hd, some (c hd)) := by
  unfold bestStep
  rw [if_pos hhd]

theorem bestStep_some (n : ℕ) (c : ℕ → ℚ) (bh hd : ℕ) (b : ℚ) (hhd : hd < n) :
    bestStep n c (bh, some b) hd = if c hd < b then (hd, some (c hd)) else (bh, some b) := by
  unfold bestStep
  rw [if_pos hhd]

/-- Invariant of the `optimizeLoadShifting` search fold: starting from a
candidate that is the first strict minimiser of the hours seen so far, the
fold over the remaining (in-range) hours ends at the first strict minimiser
of all hours. -/
theorem bestStep_foldl (n : ℕ) (c : ℕ → ℚ) :
    ∀ (rest : List ℕ), (∀ h ∈ rest, h < n) →
    ∀ (bh : ℕ) (preL preR : List ℕ),
      (∀ h ∈ preL, c bh < c h) →
      (∀ h ∈ preL ++ bh :: preR, c bh ≤ c h) →
      ∃ bh' preL' preR',
        rest.foldl (bestStep n c) (bh, some (c bh)) = (bh', some (c bh'))
        ∧ preL' ++ bh' :: preR' = (preL ++ bh :: preR) ++ rest
        ∧ (∀ h ∈ preL', c bh' < c h)
        ∧ (∀ h ∈ preL' ++ bh' :: preR', c bh' ≤ c h) := by
  intro rest
  induction rest with
  | nil =>
    intro _ bh preL preR hstrict hmin
    exact ⟨bh, preL, preR, rfl, by simp, hstrict, hmin⟩
  | cons hd tl ih =>
    intro hin bh preL preR hstrict hmin
    have hhd : hd < n := hin hd (List.mem_cons_self _ _)
    have htl : ∀ h ∈ tl, h < n := fun h hh => hin h (List.mem_cons_of_mem _ hh)
    rw [List.foldl_cons, bestStep_some n c bh hd (c bh) hhd]
    by_cases hc : c hd < c bh
    · rw [if_pos hc]
      obtain ⟨bh', preL', preR', h1, h2, h3, h4⟩ :=
        ih htl hd (preL ++ bh :: preR) []
          (fun h hh => lt_of_lt_of_le hc (hmin h hh))
          (by
            intro h hh
            rcases List.mem_append.mp hh with hh | hh
            · exact le_of_lt (lt_of_lt_of_le hc (hmin h hh))
            · rcases List.mem_cons.mp hh with rfl | hh
              · exact le_refl _
              · exact absurd hh (List.not_mem_nil h))
      refine ⟨bh', preL', preR', h1, ?_, h3, h4⟩
      rw [h2]
      simp
    · rw [if_neg hc]
      obtain ⟨bh', preL', preR', h1, h2, h3, h4⟩ :=
        ih htl bh preL (preR ++ [hd]) hstrict
          (by
            intro h hh
            rcases List.mem_append.mp hh with hh | hh
            · exact hmin h (List.mem_append_left _ hh)
            · rcases List.mem_cons.mp hh with rfl | hh
              · exact le_refl _
              · rcases List.mem_append.mp hh with hh | hh
                · exact hmin h (List.mem_append_right _ (List.mem_cons_of_mem _ hh))
                · rcases List.mem_singleton.mp hh with rfl
                  exact le_of_not_lt hc)
      refine ⟨bh', preL', preR', h1, ?_, h3, h4⟩
      rw [h2]
      simp

/-- C3 (corrected) — on the very scenario the claim describes (every other
allowed hour costs strictly more than the first-listed default hour), the
advisor stays at the default hour and reports savings `0`, not a negative
value: since the default hour is itself in the allowed window, the chosen
cost can never exceed the default cost. -/
theorem C3_counterexample :
    (shiftLoad ⟨"w", 5, [0, 1, 2]⟩ [10, 10, 10] [0, 0, 0] [1/10, 2/10, 3/10]).optimalHour = 0
    ∧ (shiftLoad ⟨"w", 5, [0, 1, 2]⟩ [10, 10, 10] [0, 0, 0] [1/10, 2/10, 3/10]).savings
        = some 0
    ∧ calculateLoadCost 5 0 [10, 10, 10] [0, 0, 0] [1/10, 2/10, 3/10]
        < calculateLoadCost 5 1 [10, 10, 10] [0, 0, 0] [1/10, 2/10, 3/10]
    ∧ calculateLoadCost 5 1 [10, 10, 10] [0, 0, 0] [1/10, 2/10, 3/10]
        < calculateLoadCost 5 2 [10, 10, 10] [0, 0, 0] [1/10, 2/10, 3/10] := by
  with_unfolding_all decide

/-- C3 (amended) — for each flexible load whose window hours all index real
periods, the advisor picks the cost-minimising hour of the window (the first
such hour on ties: every hour listed before the chosen one costs strictly
more) and reports `savings = round2(cost at the first-listed hour - cost at
the chosen hour)`; because the default hour belongs to the window, this
savings value is always non-negative (never negative). -/
theorem C3_load_shifting (load : FlexLoad) (demands solarForecasts gridPrices : List ℚ)
    (hne : load.timeWindow ≠ [])
    (hin : ∀ h ∈ load.timeWindow, h < demands.length) :
    ∃ bh preL preR,
      findBestHour load demands solarForecasts gridPrices
        = (bh, some (calculateLoadCost load.kwh bh demands solarForecasts gridPrices))
      ∧ (shiftLoad load demands solarForecasts gridPrices).optimalHour = bh
      ∧ load.timeWindow = preL ++ bh :: preR
      ∧ (∀ h ∈ preL, calculateLoadCost load.kwh bh demands solarForecasts gridPrices
            < calculateLoadCost load.kwh h demands solarForecasts gridPrices)
      ∧ (∀ h ∈ load.timeWindow,
          calculateLoadCost load.kwh bh demands solarForecasts gridPrices
            ≤ calculateLoadCost load.kwh h demands solarForecasts gridPrices)
      ∧ (shiftLoad load demands solarForecasts gridPrices).savings
          = some (round2
              (calculateLoadCost load.kwh (load.timeWindow.headD 0) demands solarForecasts
                  gridPrices
                - calculateLoadCost load.kwh bh demands solarForecasts gridPrices))
      ∧ (∀ q, (shiftLoad load demands solarForecasts gridPrices).savings = some q → 0 ≤ q) := by
  obtain ⟨w0, ws, hw⟩ : ∃ w0 ws, load.timeWindow = w0 :: ws := by
    cases hL : load.timeWindow with
    | nil => exact absurd hL hne
    | cons a as => exact ⟨a, as, rfl⟩
  have hw0 : w0 < demands.length := hin w0 (by rw [hw]; exact List.mem_cons_self _ _)
  have hws : ∀ h ∈ ws, h < demands.length := fun h hh =>
    hin h (by rw [hw]; exact List.mem_cons_of_mem _ hh)
  have hfold := bestStep_foldl demands.length
    (fun hour => calculateLoadCost load.kwh hour demands solarForecasts gridPrices)
    ws hws w0 [] []
    (by intro h hh; exact absurd hh (List.not_mem_nil h))
    (by
      intro h hh
      rcases List.mem_cons.mp hh with rfl | hh
      · exact le_refl _
      · exact absurd hh (List.not_mem_nil h))
  obtain ⟨bh, preL, preR, h1, h2, h3, h4⟩ := hfold
  have hfb : findBestHour load demands solarForecasts gridPrices
      = (bh, some (calculateLoadCost load.kwh bh demands solarForecasts gridPrices)) := by
    unfold findBestHour
    rw [hw]
    rw [List.foldl_cons]
    rw [show (w0 :: ws).headD 0 = w0 from rfl]
    rw [bestStep_none demands.length _ w0 w0 hw0]
    exact h1
  have h2' : preL ++ bh :: preR = w0 :: ws := by
    rw [h2]
    simp
  have hwin : load.timeWindow = preL ++ bh :: preR := by
    rw [hw]
    exact h2'.symm
  have hminw : ∀ h ∈ load.timeWindow,
      calculateLoadCost load.kwh bh demands solarForecasts gridPrices
        ≤ calculateLoadCost load.kwh h demands solarForecasts gridPrices := by
    intro h hh
    apply h4
    rw [h2]
    simp only [List.nil_append, List.singleton_append, ← hw]
    exact hh
  have hsav : (shiftLoad load demands solarForecasts gridPrices).savings
      = some (round2
          (calculateLoadCost load.kwh (load.timeWindow.headD 0) demands solarForecasts
              gridPrices
            - calculateLoadCost load.kwh bh demands solarForecasts gridPrices)) := by
    show (Option.map _ (findBestHour load demands solarForecasts gridPrices).2) = _
    rw [hfb]
    rfl
  refine ⟨bh, preL, preR, hfb, ?_, hwin, h3, hminw, hsav, ?_⟩
  · show (findBestHour load demands solarForecasts gridPrices).1 = bh
    rw [hfb]
  · intro q hq
    rw [hsav] at hq
    have hq' : q = round2
        (calculateLoadCost load.kwh (load.timeWindow.headD 0) demands solarForecasts gridPrices
          - calculateLoadCost load.kwh bh demands solarForecasts gridPrices) :=
      (Option.some.injEq _ _ ▸ hq).symm
    rw [hq']
    apply round2_nonneg
    have hd0 : load.timeWindow.headD 0 ∈ load.timeWindow := by
      rw [hw]
      exact List.mem_cons_self _ _
    have := hminw _ hd0
    linarith

/-- C3 witness at a concrete input. -/
theorem C3_load_shifting_witness :
    ((FlexLoad.mk "w" 5 [0, 1, 2]).timeWindow ≠ []
      ∧ ∀ h ∈ (FlexLoad.mk "w" 5 [0, 1, 2]).timeWindow, h < ([10, 10, 10] : List ℚ).length)
    ∧ ∃ bh preL preR,
      findBestHour ⟨"w", 5, [0, 1, 2]⟩ [10, 10, 10] [0, 0, 0] [1/10, 2/10, 3/10]
        = (bh, some (calculateLoadCost 5 bh [10, 10, 10] [0, 0, 0] [1/10, 2/10, 3/10]))
      ∧ (shiftLoad ⟨"w", 5, [0, 1, 2]⟩ [10, 10, 10] [0, 0, 0] [1/10, 2/10, 3/10]).optimalHour
          = bh
      ∧ (FlexLoad.mk "w" 5 [0, 1, 2]).timeWindow = preL ++ bh :: preR
      ∧ (∀ h ∈ preL, calculateLoadCost 5 bh [10, 10, 10] [0, 0, 0] [1/10, 2/10, 3/10]
            < calculateLoadCost 5 h [10, 10, 10] [0, 0, 0] [1/10, 2/10, 3/10])
      ∧ (∀ h ∈ (FlexLoad.mk "w" 5 [0, 1, 2]).timeWindow,
          calculateLoadCost 5 bh [10, 10, 10] [0, 0, 0] [1/10, 2/10, 3/10]
            ≤ calculateLoadCost 5 h [10, 10, 10] [0, 0, 0] [1/10, 2/10, 3/10])
      ∧ (shiftLoad ⟨"w", 5, [0, 1, 2]⟩ [10, 10, 10] [0, 0, 0] [1/10, 2/10, 3/10]).savings
          = some (round2
              (calculateLoadCost 5 ((FlexLoad.mk "w" 5 [0, 1, 2]).timeWindow.headD 0)
                  [10, 10, 10] [0, 0, 0] [1/10, 2/10, 3/10]
                - calculateLoadCost 5 bh [10, 10, 10] [0, 0, 0] [1/10, 2/10, 3/10]))
      ∧ (∀ q,
          (shiftLoad ⟨"w", 5, [0, 1, 2]⟩ [10, 10, 10] [0, 0, 0] [1/10, 2/10, 3/10]).savings
            = some q → 0 ≤ q) :=
  ⟨⟨by decide, by decide⟩,
   C3_load_shifting ⟨"w", 5, [0, 1, 2]⟩ [10, 10, 10] [0, 0, 0] [1/10, 2/10, 3/10]
     (by decide) (by decide)⟩

/-! ## Anomaly-detector lemmas -/

theorem foldl_pick_mem (ps : List AnomalyData) :
    ∀ acc, ps.foldl pickMostSevere acc ∈ acc :: ps := by
  induction ps with
  | nil =>
    intro acc
    exact List.mem_cons_self _ _
  | cons p ps ih =>
    intro acc
    rw [List.foldl_cons]
    rcases List.mem_cons.mp (ih (pickMostSevere acc p)) with h | h
    · rw [h]
      unfold pickMostSevere
      split
      · exact List.mem_cons_of_mem _ (List.mem_cons_self _ _)
      · exact List.mem_cons_self _ _
    · exact List.mem_cons_of_mem _ (List.mem_cons_of_mem _ h)

theorem buildHistoricalBaseline_congr (m m' : Baseline) (data : List EnergyData)
    (k : ℕ × ℕ) (hk : (data.map sampleKey).contains k = true) :
    buildHistoricalBaseline m data k = buildHistoricalBaseline m' data k := by
  unfold buildHistoricalBaseline
  rw [if_pos hk, if_pos hk]

theorem detectPatternAnomaly_build_congr (m m' : Baseline) (data : List EnergyData)
    (current : EnergyData) (hc : current ∈ data) :
    detectPatternAnomaly (buildHistoricalBaseline m data) current
      = detectPatternAnomaly (buildHistoricalBaseline m' data) current := by
  have hk : (data.map sampleKey).contains (sampleKey current) = true :=
    List.elem_eq_true_of_mem (List.mem_map_of_mem sampleKey hc)
  unfold detectPatternAnomaly
  rw [buildHistoricalBaseline_congr m m' data (sampleKey current) hk]

theorem getD_mem_of_lt {data : List EnergyData} {i : ℕ} (hi : i < data.length) :
    data.getD i default ∈ data := by
  rw [List.getD_eq_getElem?_getD, List.getElem?_eq_getElem hi, Option.getD_some]
  exact List.getElem_mem hi

theorem scoreAt_build_congr (s : Sensitivity) (m m' : Baseline) (data : List EnergyData)
    (w i : ℕ) (hi : i < data.length) :
    scoreAt s (buildHistoricalBaseline m data) data w i
      = scoreAt s (buildHistoricalBaseline m' data) data w i := by
  have hc : data.getD i default ∈ data := getD_mem_of_lt hi
  unfold scoreAt subResults
  rw [detectPatternAnomaly_build_congr m m' data _ hc]

/-- C7 — running `detect` on a detector instance that previously processed a
different history yields exactly the records of a fresh detector with the same
sensitivity: the baseline map is rebuilt from the new input, and every scored
sample's (day, hour) key is freshly set, so no entry carried over from the
earlier call can be read. -/
theorem C7_detector_reuse (s : Sensitivity) (m0 : Baseline) (h1 h2 : List EnergyData)
    (w1 w2 : ℕ) :
    (detectAnomaliesWithMap s (detectAnomaliesWithMap s m0 h1 w1).1 h2 w2).2
      = (detectAnomaliesWithMap s emptyBaseline h2 w2).2 := by
  unfold detectAnomaliesWithMap
  dsimp only
  apply List.map_congr_left
  intro i hi
  have hi' : max w2 24 ≤ i ∧ i < max w2 24 + (h2.length - max w2 24) :=
    List.mem_range'_1.mp hi
  exact scoreAt_build_congr s _ _ h2 w2 i (by omega)

/-- Justification of the `ℚ` encoding of the statistical z-score test: for
non-negative variance and cutoff, `zScoreExceeds x mean variance c` holds
exactly when `|x - mean| / (Math.sqrt(variance) + 0.001) > c` interpreted
in `ℝ`, the formula of part_000 line 323. -/
theorem zScoreExceeds_iff_sqrt (x mean variance c : ℚ)
    (hv : 0 ≤ variance) (hc : 0 ≤ c) :
    zScoreExceeds x mean variance c = true
      ↔ (c : ℝ) < |(x : ℝ) - (mean : ℝ)| / (Real.sqrt (variance : ℝ) + 1/1000) := by
  unfold zScoreExceeds
  rw [decide_eq_true_iff]
  have hσ : 0 ≤ Real.sqrt (variance : ℝ) := Real.sqrt_nonneg _
  have hσ2 : Real.sqrt (variance : ℝ) ^ 2 = (variance : ℝ) :=
    Real.sq_sqrt (by exact_mod_cast hv)
  have hden : (0:ℝ) < Real.sqrt (variance : ℝ) + 1/1000 := by linarith
  have hcR : (0:ℝ) ≤ (c : ℝ) := by exact_mod_cast hc
  have hcast : ∀ a b : ℚ, a < b ↔ (a : ℝ) < (b : ℝ) := fun a b => by exact_mod_cast Iff.rfl
  rw [lt_div_iff hden]
  constructor
  · rintro ⟨h1, h2⟩
    have h1' : (0:ℝ) < |(x:ℝ) - (mean:ℝ)| - (c:ℝ) * (1/1000) := by
      rw [hcast] at h1
      push_cast at h1
      convert h1 using 2
    have h2' : (c:ℝ)^2 * (variance:ℝ) < (|(x:ℝ) - (mean:ℝ)| - (c:ℝ) * (1/1000))^2 := by
      rw [hcast] at h2
      push_cast at h2
      convert h2 using 3
    nlinarith [mul_nonneg hcR hσ]
  · intro h
    have key : (c:ℝ) * Real.sqrt (variance : ℝ)
        < |(x:ℝ) - (mean:ℝ)| - (c:ℝ) * (1/1000) := by nlinarith
    have h1' : (0:ℝ) < |(x:ℝ) - (mean:ℝ)| - (c:ℝ) * (1/1000) :=
      lt_of_le_of_lt (mul_nonneg hcR hσ) key
    have h2' : (c:ℝ)^2 * (variance:ℝ) < (|(x:ℝ) - (mean:ℝ)| - (c:ℝ) * (1/1000))^2 := by
      nlinarith [mul_nonneg hcR hσ]
    constructor
    · rw [hcast]
      push_cast
      convert h1' using 2
    · rw [hcast]
      push_cast
      convert h2' using 3

/-- C4 — `forecast(history)` fails with the insufficient-history error exactly
when the history holds fewer than 48 samples (so a 47-sample history raises
and a 48-sample history returns a result); every other operation of the three
engines is a total function in this embedding and raises nothing. -/
theorem C4_insufficient_history (data : List EnergyData) :
    forecastNextHour data = .error .insufficientHistory ↔ data.length < 48 := by
  unfold forecastNextHour
  by_cases h : data.length < 48
  · rw [if_pos h]
    exact ⟨fun _ => h, fun _ => rfl⟩
  · rw [if_neg h]
    exact ⟨fun he => Except.noConfusion he, fun hl => absurd hl h⟩

set_option maxRecDepth 400000 in
/-- C5 (corrected) — on a 48-sample history whose consumption is identically
zero, `forecast` succeeds but the unguarded division
`Math.sqrt(variance) / mean` in `calculateConfidence` is `0/0 = NaN`, which
survives the `Math.max`/`Math.min` clamps, so the returned confidence is not a
value in `[0.65, 0.98]` (modelled as `none`). -/
theorem C5_counterexample :
    forecastNextHour (List.replicate 48 (default : EnergyData))
        = .ok (forecastResult (List.replicate 48 (default : EnergyData)))
    ∧ (forecastResult (List.replicate 48 (default : EnergyData))).confidence = none := by
  constructor
  · unfold forecastNextHour
    rw [if_neg (by simp)]
  · show (calculateConfidence (List.replicate 48 (default : EnergyData))).map _ = none
    have h : calculateConfidence (List.replicate 48 (default : EnergyData)) = none := by
      simp only [calculateConfidence]
      rw [if_pos (by with_unfolding_all decide)]
    rw [h]
    rfl

/-- C5 (amended) — for every history with at least 48 samples, the forecast
succeeds with `next_period_demand ≥ 5` and `solar_available ≥ 0`, and whenever
the confidence is a (finite) value it lies in `[0.65, 0.98]`; the confidence
is non-finite (`NaN` in JS, `none` here) exactly when the mean and variance of
the last-48-sample consumption window are both zero, because the coefficient
of variation `Math.sqrt(variance)/mean` is then an unguarded `0/0`. -/
theorem C5_forecast_bounds (data : List EnergyData) (h : 48 ≤ data.length) :
    ∃ r, forecastNextHour data = .ok r
      ∧ 5 ≤ r.nextHourDemand
      ∧ 0 ≤ r.solarAvailable
      ∧ (∀ c, r.confidence = some c → 65/100 ≤ c ∧ c ≤ 98/100)
      ∧ (r.confidence = none
          ↔ (meanQ ((data.drop (data.length - 48)).map (·.kwh)) = 0
            ∧ meanQ (((data.drop (data.length - 48)).map (·.kwh)).map
                (fun v => (v - meanQ ((data.drop (data.length - 48)).map (·.kwh)))^2)) = 0)) := by
  have hlen : ((data.drop (data.length - 48)).map (·.kwh)).length = 48 := by
    rw [List.length_map, List.length_drop]
    omega
  refine ⟨forecastResult data, ?_, ?_, ?_, ?_, ?_⟩
  · unfold forecastNextHour
    rw [if_neg (by omega)]
  · show (5:ℝ) ≤ max 5 _
    exact le_max_left _ _
  · show (0:ℝ) ≤ max 0 _
    exact le_max_left _ _
  · intro c hc
    have hc' : ∃ c₀, calculateConfidence data = some c₀
        ∧ min (98/100) (max (65/100) c₀) = c := by
      have hmap : (calculateConfidence data).map
          (fun c₀ => min (98/100 : ℝ) (max (65/100) c₀)) = some c := hc
      exact Option.map_eq_some'.mp hmap
    obtain ⟨c₀, _, hc₀⟩ := hc'
    rw [← hc₀]
    exact ⟨le_min (by norm_num) (le_max_left _ _), min_le_left _ _⟩
  · show (calculateConfidence data).map _ = none ↔ _
    simp only [calculateConfidence]
    constructor
    · intro hnone
      by_cases hcond : ((data.drop (data.length - 48)).map (·.kwh)).length = 0
        ∨ (meanQ ((data.drop (data.length - 48)).map (·.kwh)) = 0
          ∧ meanQ (((data.drop (data.length - 48)).map (·.kwh)).map
              (fun v => (v - meanQ ((data.drop (data.length - 48)).map (·.kwh)))^2)) = 0)
      · rcases hcond with hcond | hcond
        · rw [hlen] at hcond
          exact absurd hcond (by norm_num)
        · exact hcond
      · rw [if_neg hcond] at hnone
        exact absurd hnone (by simp)
    · intro hzero
      rw [if_pos (Or.inr hzero)]
      rfl

/-- C5 witness at a concrete input. -/
theorem C5_forecast_bounds_witness :
    48 ≤ (List.replicate 48 (⟨0, 10, 20, 0, 0, 1/2, none⟩ : EnergyData)).length
    ∧ ∃ r, forecastNextHour (List.replicate 48 (⟨0, 10, 20, 0, 0, 1/2, none⟩ : EnergyData))
          = .ok r
      ∧ 5 ≤ r.nextHourDemand
      ∧ 0 ≤ r.solarAvailable
      ∧ (∀ c, r.confidence = some c → 65/100 ≤ c ∧ c ≤ 98/100)
      ∧ (r.confidence = none
          ↔ (meanQ (((List.replicate 48 (⟨0, 10, 20, 0, 0, 1/2, none⟩ : EnergyData)).drop
                ((List.replicate 48 (⟨0, 10, 20, 0, 0, 1/2, none⟩ : EnergyData)).length - 48)).map
                (·.kwh)) = 0
            ∧ meanQ ((((List.replicate 48 (⟨0, 10, 20, 0, 0, 1/2, none⟩ : EnergyData)).drop
                ((List.replicate 48 (⟨0, 10, 20, 0, 0, 1/2, none⟩ : EnergyData)).length - 48)).map
                (·.kwh)).map
                (fun v => (v - meanQ (((List.replicate 48
                    (⟨0, 10, 20, 0, 0, 1/2, none⟩ : EnergyData)).drop
                  ((List.replicate 48 (⟨0, 10, 20, 0, 0, 1/2, none⟩ : EnergyData)).length
                    - 48)).map (·.kwh)))^2)) = 0)) :=
  ⟨by simp,
   C5_forecast_bounds (List.replicate 48 (⟨0, 10, 20, 0, 0, 1/2, none⟩ : EnergyData))
     (by simp)⟩

end GreenlandAI
